import Mathlib

/-!
Verification of the planar 3-DoF LSPB trajectory visualizer core
(frontend/app/viz/lspb-manipulator/page.tsx).

The development shallowly embeds the component: the pure geometry
(forward kinematics, live Jacobian, reach clamping, coordinate mapping)
as functions on real numbers, and the playback/scrubbing controller as a
state record with one transition function per event handler.  React
effect semantics are modelled explicitly: the animation loop of the
effect with dependency list (isAnimating, trajectory, hoverFrame) is
live exactly when its entry guard holds, and its local frameIndex
variable (field animIdx below) is re-initialised to 0 whenever a
dependency change re-runs the effect with the guard true (remount).
-/

namespace Lspb

/-- Canvas width constant from the source. -/
def CANVAS_WIDTH : ℝ := 600

/-- Canvas height constant from the source. -/
def CANVAS_HEIGHT : ℝ := 600

/-- Base x coordinate: CANVAS_WIDTH / 2. -/
noncomputable def BASE_X : ℝ := CANVAS_WIDTH / 2

/-- Base y coordinate: CANVAS_HEIGHT / 2. -/
noncomputable def BASE_Y : ℝ := CANVAS_HEIGHT / 2

/-- Source toRobotCoords: robot coordinates of a canvas point
(origin at canvas centre, y axis flipped). -/
noncomputable def toRobotCoords (cx cy : ℝ) : ℝ × ℝ :=
  (cx - BASE_X, BASE_Y - cy)

/-- Source toCanvasCoords: canvas coordinates of a robot point. -/
noncomputable def toCanvasCoords (x y : ℝ) : ℝ × ℝ :=
  (BASE_X + x, BASE_Y - y)

/-- Source getJointPositions, loop unrolled: the running sums
currentAngle = q0, q0+q1, q0+q1+q2 and the accumulated x/y are
substituted in.  Returns base, joint1, joint2, end effector. -/
noncomputable def getJointPositions (q : Fin 3 → ℝ) (l1 l2 l3 : ℝ) :
    List (ℝ × ℝ) :=
  [(0, 0),
   (l1 * Real.cos (q 0), l1 * Real.sin (q 0)),
   (l1 * Real.cos (q 0) + l2 * Real.cos (q 0 + q 1),
    l1 * Real.sin (q 0) + l2 * Real.sin (q 0 + q 1)),
   (l1 * Real.cos (q 0) + l2 * Real.cos (q 0 + q 1) +
      l3 * Real.cos (q 0 + q 1 + q 2),
    l1 * Real.sin (q 0) + l2 * Real.sin (q 0 + q 1) +
      l3 * Real.sin (q 0 + q 1 + q 2))]

/-- Source getLiveJacobian, with the closure variables L1, L2, L3 taken
as parameters: the analytic 2 by 3 linear-velocity Jacobian. -/
noncomputable def getLiveJacobian (q : Fin 3 → ℝ) (l1 l2 l3 : ℝ) :
    List (List ℝ) :=
  [[-l1 * Real.sin (q 0) - l2 * Real.sin (q 0 + q 1) -
      l3 * Real.sin (q 0 + q 1 + q 2),
    -l2 * Real.sin (q 0 + q 1) - l3 * Real.sin (q 0 + q 1 + q 2),
    -l3 * Real.sin (q 0 + q 1 + q 2)],
   [l1 * Real.cos (q 0) + l2 * Real.cos (q 0 + q 1) +
      l3 * Real.cos (q 0 + q 1 + q 2),
    l2 * Real.cos (q 0 + q 1) + l3 * Real.cos (q 0 + q 1 + q 2),
    l3 * Real.cos (q 0 + q 1 + q 2)]]

/-- Source clamping logic in handleCanvasClick: dist and
maxReach = L1 + L2 + L3 - 0.1 inlined.  If dist > maxReach the target
is scaled radially onto the boundary, otherwise passed through. -/
noncomputable def clampTarget (t : ℝ × ℝ) (l1 l2 l3 : ℝ) : ℝ × ℝ :=
  if l1 + l2 + l3 - 0.1 < Real.sqrt (t.1 ^ 2 + t.2 ^ 2) then
    (t.1 / Real.sqrt (t.1 ^ 2 + t.2 ^ 2) * (l1 + l2 + l3 - 0.1),
     t.2 / Real.sqrt (t.1 ^ 2 + t.2 ^ 2) * (l1 + l2 + l3 - 0.1))
  else t

/-- Length of link i, mirroring the lengths array [l1, l2, l3]. -/
def lengthAt (l1 l2 l3 : ℝ) (i : Fin 3) : ℝ :=
  if i = 0 then l1 else if i = 1 then l2 else l3

/-- Cumulative absolute orientation of link i (the running sum
currentAngle in the source loop). -/
noncomputable def cumAngle (q : Fin 3 → ℝ) (i : Fin 3) : ℝ :=
  if i = 0 then q 0 else if i = 1 then q 0 + q 1 else q 0 + q 1 + q 2

/-- End effector: element 3 of getJointPositions, as the source writes
getJointPositions(...)[3] (the default is unreachable: the list
literally has four elements). -/
noncomputable def endEffector (q : Fin 3 → ℝ) (l1 l2 l3 : ℝ) : ℝ × ℝ :=
  ((getJointPositions q l1 l2 l3).get? 3).getD (0, 0)

/-- View an angle triple as the 3-element angle array of the source. -/
def anglesFun (a : ℝ × ℝ × ℝ) : Fin 3 → ℝ :=
  fun i => if i = 0 then a.1 else if i = 1 then a.2.1 else a.2.2

/-- A trajectory sample as returned by the planning service:
time stamp and the three joint angles. -/
structure RawSample where
  time : ℝ
  q1 : ℝ
  q2 : ℝ
  q3 : ℝ

/-- A trajectory sample after the component augments it with the
derived end-effector coordinates (enrichedTrajectory in the source). -/
structure Sample where
  time : ℝ
  q1 : ℝ
  q2 : ℝ
  q3 : ℝ
  ee_x : ℝ
  ee_y : ℝ

/-- Body of the planning request issued by handleCanvasClick. -/
structure Request where
  current_angles : ℝ × ℝ × ℝ
  target_x : ℝ
  target_y : ℝ
  duration : ℝ
  dt : ℝ
  l1 : ℝ
  l2 : ℝ
  l3 : ℝ

/-- Component state: the useState fields of the source, plus animIdx
(the local frameIndex of the animation effect) and pending (the
in-flight planning requests whose continuations have not run yet). -/
structure St where
  L1 : ℝ
  L2 : ℝ
  L3 : ℝ
  duration : ℝ
  currentAngles : ℝ × ℝ × ℝ
  targetXY : Option (ℝ × ℝ)
  trajectory : List Sample
  isAnimating : Bool
  currentFrame : ℕ
  hoverFrame : Option ℕ
  error : Option String
  animIdx : ℕ
  pending : List Request

/-- Entry guard of the animation effect: the effect body proceeds only
when isAnimating, trajectory.length is not 0, and hoverFrame is null. -/
def animGuard (s : St) : Bool :=
  s.isAnimating && !(s.trajectory.length == 0) && s.hoverFrame.isNone

/-- Effect re-run after a dependency change: if the guard now holds the
animation loop is (re)mounted and its local frameIndex starts at 0. -/
def remount (s : St) : St :=
  if animGuard s then { s with animIdx := 0 } else s

/-- Source displayAngles: scrub angles when hoverFrame is set and the
indexed sample exists, otherwise the live committed angles. -/
def displayAngles (s : St) : ℝ × ℝ × ℝ :=
  match s.hoverFrame with
  | some i =>
      match s.trajectory.get? i with
      | some pt => (pt.q1, pt.q2, pt.q3)
      | none => s.currentAngles
  | none => s.currentAngles

/-- Angles of trajectory[trajectory.length - 1] (finalPoint in the
source); the fallback is unreachable because the animation effect guard
requires a nonempty trajectory. -/
def lastAngles (s : St) : ℝ × ℝ × ℝ :=
  match s.trajectory.getLast? with
  | some pt => (pt.q1, pt.q2, pt.q3)
  | none => s.currentAngles

/-- One step of the animate callback.  When the loop is live: if
frameIndex has reached the trajectory length, stop animating and commit
the final sample's angles (no further step is scheduled); otherwise
display frame animIdx and advance. -/
def animTick (s : St) : St :=
  if animGuard s then
    if h : s.trajectory.length ≤ s.animIdx then
      remount { s with isAnimating := false, currentAngles := lastAngles s }
    else
      let point := s.trajectory.get ⟨s.animIdx, by omega⟩
      { s with currentFrame := s.animIdx,
               currentAngles := (point.q1, point.q2, point.q3),
               animIdx := s.animIdx + 1 }
  else s

/-- Chart onMouseMove: setHoverFrame(i).  A dependency of the animation
effect changes only when the stored value actually changes. -/
def hoverMove (s : St) (i : ℕ) : St :=
  if s.hoverFrame = some i then s
  else remount { s with hoverFrame := some i }

/-- Chart onMouseLeave: setHoverFrame(null). -/
def hoverLeave (s : St) : St :=
  if s.hoverFrame = none then s
  else remount { s with hoverFrame := none }

/-- Fixed home pose the Reset button restores. -/
noncomputable def homePose : ℝ × ℝ × ℝ :=
  (Real.pi / 4, -(Real.pi / 4), -(Real.pi / 4))

/-- Reset button onClick: restores the home pose, clears trajectory,
target, error and hover.  Note it does not touch isAnimating and does
not abort pending requests. -/
noncomputable def resetClick (s : St) : St :=
  remount { s with currentAngles := homePose, trajectory := [],
                   targetXY := none, error := none, hoverFrame := none }

/-- Source handleCanvasClick up to the await: ignored while animating,
otherwise clamps the clicked point, sets the target marker, clears the
error and issues the planning request. -/
noncomputable def handleCanvasClick (s : St) (cx cy : ℝ) : St :=
  if s.isAnimating then s
  else
    let target := toRobotCoords cx cy
    let clamped := clampTarget target s.L1 s.L2 s.L3
    { s with targetXY := some clamped, error := none,
             pending := s.pending ++
               [⟨s.currentAngles, clamped.1, clamped.2, s.duration, 0.05,
                 s.L1, s.L2, s.L3⟩] }

/-- Augment one service sample with end-effector coordinates computed
from the link lengths captured by the request closure. -/
noncomputable def enrich (l1 l2 l3 : ℝ) (pt : RawSample) : Sample :=
  ⟨pt.time, pt.q1, pt.q2, pt.q3,
   (endEffector (anglesFun (pt.q1, pt.q2, pt.q3)) l1 l2 l3).1,
   (endEffector (anglesFun (pt.q1, pt.q2, pt.q3)) l1 l2 l3).2⟩

/-- Continuation of handleCanvasClick on a successful response to the
i-th in-flight request: unconditionally installs the enriched
trajectory, resets currentFrame and starts animating (the source has no
staleness guard). -/
noncomputable def responseSuccess (s : St) (i : ℕ) (raw : List RawSample) :
    St :=
  match s.pending.get? i with
  | none => s
  | some req =>
      remount { s with pending := s.pending.eraseIdx i,
                       trajectory := raw.map (enrich req.l1 req.l2 req.l3),
                       currentFrame := 0,
                       isAnimating := true }

/-- Catch branch of handleCanvasClick on a failed response to the i-th
in-flight request: surfaces the message and clears the target marker. -/
def responseFailure (s : St) (i : ℕ) (msg : String) : St :=
  match s.pending.get? i with
  | none => s
  | some _ =>
      { s with pending := s.pending.eraseIdx i, error := some msg,
               targetXY := none }

/-- C2: for a target at Euclidean distance d from the base and
maxReach m = l1 + l2 + l3 - 0.1: if d is at most m the clamp returns
the input unchanged (including the zero-distance target), and if d
exceeds m the clamp returns a point at distance exactly m from the
base that is a nonnegative scalar multiple of the original target,
hence collinear with the base and the target. -/
theorem clampTarget_spec (t : ℝ × ℝ) (l1 l2 l3 : ℝ)
    (hm : 0 ≤ l1 + l2 + l3 - 0.1) :
    (Real.sqrt (t.1 ^ 2 + t.2 ^ 2) ≤ l1 + l2 + l3 - 0.1 →
      clampTarget t l1 l2 l3 = t)
    ∧ (l1 + l2 + l3 - 0.1 < Real.sqrt (t.1 ^ 2 + t.2 ^ 2) →
      Real.sqrt ((clampTarget t l1 l2 l3).1 ^ 2 +
          (clampTarget t l1 l2 l3).2 ^ 2) = l1 + l2 + l3 - 0.1
      ∧ ∃ c : ℝ, 0 ≤ c ∧ clampTarget t l1 l2 l3 = (c * t.1, c * t.2)) := by
  constructor
  · intro h
    unfold clampTarget
    rw [if_neg (not_lt.mpr h)]
  · intro h
    set m : ℝ := l1 + l2 + l3 - 0.1 with hmdef
    set d : ℝ := Real.sqrt (t.1 ^ 2 + t.2 ^ 2) with hddef
    have hd0 : 0 < d := lt_of_le_of_lt hm h
    have hcl : clampTarget t l1 l2 l3 = (t.1 / d * m, t.2 / d * m) := by
      unfold clampTarget
      rw [if_pos h]
    refine ⟨?_, m / d, div_nonneg hm hd0.le, ?_⟩
    · rw [hcl]
      have hsq : (t.1 / d * m) ^ 2 + (t.2 / d * m) ^ 2 =
          (m / d) ^ 2 * (t.1 ^ 2 + t.2 ^ 2) := by ring
      rw [hsq, Real.sqrt_mul (sq_nonneg _), Real.sqrt_sq (div_nonneg hm hd0.le),
        ← hddef, div_mul_cancel₀ m hd0.ne']
    · rw [hcl, Prod.mk.injEq]
      constructor <;> ring

/-- Witness for clampTarget_spec at lengths (100, 80, 60): the in-range
target (30, 40) (distance 50) passes through unchanged, and the
out-of-range target (500, 0) is clamped to distance exactly 239.9 on
the ray through it. -/
theorem clampTarget_spec_witness :
    clampTarget (30, 40) 100 80 60 = (30, 40)
    ∧ (Real.sqrt ((clampTarget (500, 0) 100 80 60).1 ^ 2 +
          (clampTarget (500, 0) 100 80 60).2 ^ 2) = 100 + 80 + 60 - 0.1
      ∧ ∃ c : ℝ, 0 ≤ c ∧
          clampTarget (500, 0) 100 80 60 = (c * 500, c * 0)) := by
  have h1 : Real.sqrt (((30 : ℝ), (40 : ℝ)).1 ^ 2 + ((30 : ℝ), (40 : ℝ)).2 ^ 2) = 50 := by
    rw [show (((30 : ℝ), (40 : ℝ)).1 ^ 2 + ((30 : ℝ), (40 : ℝ)).2 ^ 2 : ℝ) = 50 ^ 2 by norm_num,
      Real.sqrt_sq (by norm_num)]
  have h2 : Real.sqrt (((500 : ℝ), (0 : ℝ)).1 ^ 2 + ((500 : ℝ), (0 : ℝ)).2 ^ 2) = 500 := by
    rw [show (((500 : ℝ), (0 : ℝ)).1 ^ 2 + ((500 : ℝ), (0 : ℝ)).2 ^ 2 : ℝ) = 500 ^ 2 by norm_num,
      Real.sqrt_sq (by norm_num)]
  constructor
  · exact (clampTarget_spec (30, 40) 100 80 60 (by norm_num)).1
      (by rw [h1]; norm_num)
  · exact (clampTarget_spec (500, 0) 100 80 60 (by norm_num)).2
      (by rw [h2]; norm_num)

/-- Shifting the first summand of a two-term angle sum by a full turn
leaves the cosine unchanged. -/
theorem cos_two_pi_mid (a b : ℝ) :
    Real.cos (a + 2 * Real.pi + b) = Real.cos (a + b) := by
  rw [add_right_comm, Real.cos_add_two_pi]

/-- Sine version of cos_two_pi_mid. -/
theorem sin_two_pi_mid (a b : ℝ) :
    Real.sin (a + 2 * Real.pi + b) = Real.sin (a + b) := by
  rw [add_right_comm, Real.sin_add_two_pi]

/-- Full-turn shift buried two summands deep, cosine. -/
theorem cos_two_pi_mid2 (a b c : ℝ) :
    Real.cos (a + 2 * Real.pi + b + c) = Real.cos (a + b + c) := by
  rw [show a + 2 * Real.pi + b + c = a + b + c + 2 * Real.pi by ring,
    Real.cos_add_two_pi]

/-- Full-turn shift buried two summands deep, sine. -/
theorem sin_two_pi_mid2 (a b c : ℝ) :
    Real.sin (a + 2 * Real.pi + b + c) = Real.sin (a + b + c) := by
  rw [show a + 2 * Real.pi + b + c = a + b + c + 2 * Real.pi by ring,
    Real.sin_add_two_pi]

/-- Full-turn shift of the second summand, cosine. -/
theorem cos_two_pi_snd (a b : ℝ) :
    Real.cos (a + (b + 2 * Real.pi)) = Real.cos (a + b) := by
  rw [show a + (b + 2 * Real.pi) = a + b + 2 * Real.pi by ring,
    Real.cos_add_two_pi]

/-- Full-turn shift of the second summand, sine. -/
theorem sin_two_pi_snd (a b : ℝ) :
    Real.sin (a + (b + 2 * Real.pi)) = Real.sin (a + b) := by
  rw [show a + (b + 2 * Real.pi) = a + b + 2 * Real.pi by ring,
    Real.sin_add_two_pi]

/-- Full-turn shift of the middle summand of three, cosine. -/
theorem cos_two_pi_snd2 (a b c : ℝ) :
    Real.cos (a + (b + 2 * Real.pi) + c) = Real.cos (a + b + c) := by
  rw [show a + (b + 2 * Real.pi) + c = a + b + c + 2 * Real.pi by ring,
    Real.cos_add_two_pi]

/-- Full-turn shift of the middle summand of three, sine. -/
theorem sin_two_pi_snd2 (a b c : ℝ) :
    Real.sin (a + (b + 2 * Real.pi) + c) = Real.sin (a + b + c) := by
  rw [show a + (b + 2 * Real.pi) + c = a + b + c + 2 * Real.pi by ring,
    Real.sin_add_two_pi]

/-- C3: getJointPositions returns exactly 4 points, the first is the
base (0, 0), each next point is the previous one displaced by
length i times (cos, sin) of the cumulative angle, and adding a full
turn to any single joint angle leaves all four points unchanged. -/
theorem getJointPositions_spec (q : Fin 3 → ℝ) (l1 l2 l3 : ℝ) :
    (getJointPositions q l1 l2 l3).length = 4
    ∧ (getJointPositions q l1 l2 l3).get? 0 = some (0, 0)
    ∧ (∀ i : Fin 3, ∀ p : ℝ × ℝ,
        (getJointPositions q l1 l2 l3).get? i.val = some p →
        (getJointPositions q l1 l2 l3).get? (i.val + 1) =
          some (p.1 + lengthAt l1 l2 l3 i * Real.cos (cumAngle q i),
                p.2 + lengthAt l1 l2 l3 i * Real.sin (cumAngle q i)))
    ∧ (∀ i : Fin 3,
        getJointPositions (Function.update q i (q i + 2 * Real.pi)) l1 l2 l3 =
          getJointPositions q l1 l2 l3) := by
  refine ⟨rfl, rfl, ?_, ?_⟩
  · intro i p hp
    fin_cases i <;>
      simp only [getJointPositions, List.get?, Option.some.injEq] at hp ⊢ <;>
      subst hp <;>
      simp [lengthAt, cumAngle]
  · intro i
    fin_cases i <;>
      simp only [getJointPositions, Function.update_apply, Fin.isValue] <;>
      norm_num [Fin.ext_iff, cos_two_pi_mid, sin_two_pi_mid, cos_two_pi_mid2,
        sin_two_pi_mid2, cos_two_pi_snd, sin_two_pi_snd, cos_two_pi_snd2,
        sin_two_pi_snd2, Real.cos_add_two_pi, Real.sin_add_two_pi,
        show ((⟨2, by omega⟩ : Fin 3)) = 2 from rfl]

/-- Witness for getJointPositions_spec: at the all-zero pose with
lengths (1, 2, 3), joint 1 sits at distance 1 on the x axis and the
chain conjunct applied there places joint 2 two units further. -/
theorem getJointPositions_spec_witness :
    (getJointPositions (fun _ => 0) 1 2 3).get? 1 =
      some (1 * Real.cos 0, 1 * Real.sin 0)
    ∧ (getJointPositions (fun _ => 0) 1 2 3).get? 2 =
      some (1 * Real.cos 0 + 2 * Real.cos (0 + 0),
            1 * Real.sin 0 + 2 * Real.sin (0 + 0)) := by
  have h := (getJointPositions_spec (fun _ => 0) 1 2 3).2.2.1 1
    (1 * Real.cos 0, 1 * Real.sin 0) rfl
  exact ⟨rfl, by simpa [lengthAt, cumAngle] using h⟩

/-- Modelled from the spec's formula for the Jacobian entries:
row 0 entry i is the negated sum over k at least i of
lengths k times sin of the cumulative angle, row 1 the cosine sum. -/
noncomputable def jacobianSpecEntry (q : Fin 3 → ℝ) (l1 l2 l3 : ℝ)
    (r : Fin 2) (i : Fin 3) : ℝ :=
  if r = 0 then
    -(∑ k ∈ Finset.Ici i, lengthAt l1 l2 l3 k * Real.sin (cumAngle q k))
  else
    ∑ k ∈ Finset.Ici i, lengthAt l1 l2 l3 k * Real.cos (cumAngle q k)

/-- C4: getLiveJacobian equals, entry by entry, the analytic formula
of the spec, and at the zero pose it evaluates to
[[0, 0, 0], [l1 + l2 + l3, l2 + l3, l3]]. -/
theorem getLiveJacobian_spec (q : Fin 3 → ℝ) (l1 l2 l3 : ℝ) :
    getLiveJacobian q l1 l2 l3 =
      [[jacobianSpecEntry q l1 l2 l3 0 0, jacobianSpecEntry q l1 l2 l3 0 1,
        jacobianSpecEntry q l1 l2 l3 0 2],
       [jacobianSpecEntry q l1 l2 l3 1 0, jacobianSpecEntry q l1 l2 l3 1 1,
        jacobianSpecEntry q l1 l2 l3 1 2]]
    ∧ getLiveJacobian (fun _ => 0) l1 l2 l3 =
      [[0, 0, 0], [l1 + l2 + l3, l2 + l3, l3]] := by
  have hI0 : Finset.Ici (0 : Fin 3) = {0, 1, 2} := by decide
  have hI1 : Finset.Ici (1 : Fin 3) = {1, 2} := by decide
  have hI2 : Finset.Ici (2 : Fin 3) = {2} := by decide
  constructor
  · simp only [getLiveJacobian, jacobianSpecEntry, hI0, hI1, hI2]
    norm_num [Finset.sum_insert, Finset.mem_insert, lengthAt, cumAngle,
      Fin.ext_iff]
    exact ⟨⟨by ring, by ring⟩, by ring⟩
  · simp only [getLiveJacobian]
    norm_num

/-- C10: whenever the hovered frame index has no trajectory sample
(out of range or empty trajectory), displayAngles falls back to the
live committed angles, so hovering can never display an undefined
pose. -/
theorem displayAngles_fallback (s : St) (i : ℕ)
    (h1 : s.hoverFrame = some i) (h2 : s.trajectory.get? i = none) :
    displayAngles s = s.currentAngles := by
  simp only [displayAngles, h1, h2]

/-- Concrete state hovering frame 5 over an empty trajectory. -/
noncomputable def stHover : St :=
  { L1 := 100, L2 := 80, L3 := 60, duration := 2.5,
    currentAngles := (1, 2, 3), targetXY := none, trajectory := [],
    isAnimating := false, currentFrame := 0, hoverFrame := some 5,
    error := none, animIdx := 0, pending := [] }

/-- Witness for displayAngles_fallback: hovering frame 5 over an empty
trajectory displays the committed angles (1, 2, 3). -/
theorem displayAngles_fallback_witness :
    stHover.hoverFrame = some 5 ∧ stHover.trajectory.get? 5 = none ∧
      displayAngles stHover = (1, 2, 3) :=
  ⟨rfl, rfl, displayAngles_fallback stHover 5 rfl rfl⟩

/-- Remounting the animation effect touches only the local frame
counter animIdx; every component state field is unchanged. -/
theorem remount_fields (s : St) :
    (remount s).hoverFrame = s.hoverFrame
    ∧ (remount s).currentAngles = s.currentAngles
    ∧ (remount s).trajectory = s.trajectory
    ∧ (remount s).currentFrame = s.currentFrame
    ∧ (remount s).isAnimating = s.isAnimating := by
  unfold remount
  split <;> exact ⟨rfl, rfl, rfl, rfl, rfl⟩

/-- A hover-move event only sets hoverFrame (the effect is not
remounted because its guard fails while hovering). -/
theorem hoverMove_eq (s : St) (i : ℕ) :
    hoverMove s i = { s with hoverFrame := some i } := by
  unfold hoverMove remount animGuard
  by_cases h : s.hoverFrame = some i
  · rw [if_pos h]
    simp [← h]
  · rw [if_neg h]
    split
    · next hg => simp [Option.isNone] at hg
    · rfl

/-- Hover-leave after a hover-move is the effect re-run on the state
with hoverFrame cleared. -/
theorem hoverLeave_hoverMove (s : St) (i : ℕ) :
    hoverLeave (hoverMove s i) = remount { s with hoverFrame := none } := by
  rw [hoverMove_eq]
  unfold hoverLeave
  rw [if_neg (by simp)]

/-- C1 (amended): a hover-enter event on an existing frame makes
Scrubbing authoritative for display without altering the committed
angles, the stored currentFrame or the trajectory; on hover-leave the
displayed angles immediately equal the committed angles (those of the
last frame the animation tick stored, not frame 0); but if the state
was Animating, playback does not resume where it left off: the
animation effect remounts with its local frame counter at 0, so the
next tick displays frame 0 again. -/
theorem scrub_display_authority (s : St) (i : ℕ) (pt : Sample)
    (hi : s.trajectory.get? i = some pt) :
    displayAngles (hoverMove s i) = (pt.q1, pt.q2, pt.q3)
    ∧ (hoverMove s i).currentFrame = s.currentFrame
    ∧ (hoverMove s i).currentAngles = s.currentAngles
    ∧ (hoverMove s i).trajectory = s.trajectory
    ∧ displayAngles (hoverLeave (hoverMove s i)) = s.currentAngles
    ∧ (s.isAnimating = true →
        (hoverLeave (hoverMove s i)).animIdx = 0
        ∧ (animTick (hoverLeave (hoverMove s i))).currentFrame = 0
        ∧ (animTick (hoverLeave (hoverMove s i))).animIdx = 1) := by
  have hlen : i < s.trajectory.length := by
    rcases List.get?_eq_some.mp hi with ⟨h, _⟩
    exact h
  have hpos : 0 < s.trajectory.length := Nat.lt_of_le_of_lt (Nat.zero_le i) hlen
  rw [hoverLeave_hoverMove, hoverMove_eq]
  refine ⟨?_, rfl, rfl, rfl, ?_, ?_⟩
  · simp only [displayAngles, hi]
  · obtain ⟨h1, h2, -⟩ := remount_fields { s with hoverFrame := none }
    simp only [displayAngles, h1, h2]
  · intro hA
    have hg : animGuard { s with hoverFrame := none } = true := by
      simp [animGuard, hA, Nat.pos_iff_ne_zero.mp hpos]
    have hre : remount { s with hoverFrame := none } =
        { s with hoverFrame := none, animIdx := 0 } := by
      unfold remount
      rw [if_pos hg]
    rw [hre]
    have hg2 : animGuard { s with hoverFrame := none, animIdx := 0 } = true := by
      simp [animGuard, hA, Nat.pos_iff_ne_zero.mp hpos]
    refine ⟨rfl, ?_, ?_⟩ <;>
      · unfold animTick
        rw [if_pos hg2, dif_neg (by simpa using Nat.not_le.mpr hpos)]

/-- Trajectory sample with all angles 0. -/
noncomputable def samp0 : Sample := ⟨0, 0, 0, 0, 0, 0⟩

/-- Trajectory sample with all angles 1. -/
noncomputable def samp1 : Sample := ⟨0.05, 1, 1, 1, 0, 0⟩

/-- Trajectory sample with all angles 2. -/
noncomputable def samp2 : Sample := ⟨0.1, 2, 2, 2, 0, 0⟩

/-- Concrete mid-playback state: animating a 3-sample trajectory, the
last tick displayed frame 1 (angles (1, 1, 1)) and the loop's local
frame counter stands at 2. -/
noncomputable def stMid : St :=
  { L1 := 100, L2 := 80, L3 := 60, duration := 2.5,
    currentAngles := (1, 1, 1), targetXY := none,
    trajectory := [samp0, samp1, samp2], isAnimating := true,
    currentFrame := 1, hoverFrame := none, error := none, animIdx := 2,
    pending := [] }

/-- Witness for scrub_display_authority at stMid hovering frame 0:
scrubbing displays sample 0's angles, hover-leave immediately restores
the committed angles (1, 1, 1), and the remounted loop counter is 0. -/
theorem scrub_display_authority_witness :
    stMid.trajectory.get? 0 = some samp0
    ∧ displayAngles (hoverMove stMid 0) = (0, 0, 0)
    ∧ displayAngles (hoverLeave (hoverMove stMid 0)) = (1, 1, 1)
    ∧ (hoverLeave (hoverMove stMid 0)).animIdx = 0 := by
  have h := scrub_display_authority stMid 0 samp0 rfl
  exact ⟨rfl, by rw [h.1]; rfl, by rw [h.2.2.2.2.1]; rfl,
    (h.2.2.2.2.2 rfl).1⟩

/-- Counterexample to C1 as stated: at stMid the loop counter is 2, so
resuming playback would next display frame 2 with angles (2, 2, 2);
after hover-enter then hover-leave the next animation tick instead
displays frame 0 with angles (0, 0, 0) — playback is reset to frame 0,
not resumed where it left off. -/
theorem scrub_resume_counterexample :
    stMid.animIdx = 2
    ∧ (animTick (hoverLeave (hoverMove stMid 0))).currentFrame = 0
    ∧ (animTick (hoverLeave (hoverMove stMid 0))).currentAngles = (0, 0, 0)
    ∧ ((0 : ℝ), (0 : ℝ), (0 : ℝ)) ≠ ((2 : ℝ), 2, 2) := by
  refine ⟨rfl, rfl, rfl, by norm_num [Prod.ext_iff]⟩

/-- C5: when the live animation loop's frame index has reached the
trajectory length, the next tick leaves Animating (isAnimating becomes
false), commits the last trajectory sample's angles, and fully stops
the clock: the loop guard is false afterwards and further ticks are
no-ops. -/
theorem animation_completion (s : St)
    (hg : animGuard s = true)
    (hend : s.trajectory.length ≤ s.animIdx) :
    (animTick s).isAnimating = false
    ∧ (∀ ptl : Sample, s.trajectory.getLast? = some ptl →
        (animTick s).currentAngles = (ptl.q1, ptl.q2, ptl.q3))
    ∧ animGuard (animTick s) = false
    ∧ animTick (animTick s) = animTick s := by
  have hstep : animTick s =
      remount { s with isAnimating := false, currentAngles := lastAngles s } := by
    unfold animTick
    rw [if_pos hg, dif_pos hend]
  have hre :
      remount { s with isAnimating := false, currentAngles := lastAngles s } =
        { s with isAnimating := false, currentAngles := lastAngles s } := by
    unfold remount
    rw [if_neg]
    simp [animGuard]
  rw [hstep, hre]
  have hgoff : animGuard
      { s with isAnimating := false, currentAngles := lastAngles s } = false := by
    simp [animGuard]
  refine ⟨rfl, ?_, hgoff, ?_⟩
  · intro ptl hptl
    simp only [lastAngles, hptl]
  · unfold animTick
    rw [hgoff]
    simp

/-- Concrete state: a 50-sample trajectory whose loop counter has just
reached 50 (frames 0 to 49 already displayed, sample 49 is samp2). -/
noncomputable def st50 : St :=
  { L1 := 100, L2 := 80, L3 := 60, duration := 2.5,
    currentAngles := (2, 2, 2), targetXY := some (10, 20),
    trajectory := List.replicate 49 samp1 ++ [samp2], isAnimating := true,
    currentFrame := 49, hoverFrame := none, error := none, animIdx := 50,
    pending := [] }

/-- Witness for animation_completion: on st50 (50 samples, counter 50)
the completing tick clears isAnimating and commits sample 49's angles
(2, 2, 2), and the guard is off afterwards. -/
theorem animation_completion_witness :
    animGuard st50 = true
    ∧ st50.trajectory.length = 50
    ∧ (animTick st50).isAnimating = false
    ∧ (animTick st50).currentAngles = (2, 2, 2)
    ∧ animGuard (animTick st50) = false := by
  have hg : animGuard st50 = true := by
    simp [animGuard, st50]
  have hlen : st50.trajectory.length = 50 := by
    simp [st50]
  have hlast : st50.trajectory.getLast? = some samp2 := by
    show (List.replicate 49 samp1 ++ [samp2]).getLast? = some samp2
    rw [List.getLast?_append_cons]
    rfl
  have h := animation_completion st50 hg (by rw [hlen]; rfl)
  exact ⟨hg, hlen, h.1, by rw [h.2.1 samp2 hlast]; rfl, h.2.2.1⟩

/-- Concrete state mid-animation, with a target marker and a surfaced
error present, used as the failing input for the Reset claim. -/
noncomputable def stAnim : St :=
  { L1 := 100, L2 := 80, L3 := 60, duration := 2.5,
    currentAngles := (0.5, 0.5, 0.5), targetXY := some (50, 0),
    trajectory := [samp0, samp1], isAnimating := true, currentFrame := 0,
    hoverFrame := none, error := some "old", animIdx := 1,
    pending := [] }

/-- C6 failing input evaluated: Reset pressed while Animating clears
angles, trajectory, target and error as claimed, but does NOT return
the machine to Idle — isAnimating stays true, every later canvas click
is ignored, and no animation tick can ever run again (the guard fails
on the now-empty trajectory), so the flag is stuck forever. -/
theorem reset_while_animating_bug :
    stAnim.isAnimating = true
    ∧ (resetClick stAnim).isAnimating = true
    ∧ (resetClick stAnim).trajectory = []
    ∧ (resetClick stAnim).currentAngles = homePose
    ∧ (resetClick stAnim).targetXY = none
    ∧ (resetClick stAnim).error = none
    ∧ handleCanvasClick (resetClick stAnim) 100 100 = resetClick stAnim
    ∧ animTick (resetClick stAnim) = resetClick stAnim := by
  have hr : resetClick stAnim =
      { stAnim with currentAngles := homePose, trajectory := [],
                    targetXY := none, error := none, hoverFrame := none } := by
    unfold resetClick remount
    rw [if_neg]
    simp [animGuard]
  rw [hr]
  exact ⟨rfl, rfl, rfl, rfl, rfl, rfl, rfl, rfl⟩

/-- Concrete idle state with no trajectory and no in-flight request. -/
noncomputable def stIdle : St :=
  { L1 := 100, L2 := 80, L3 := 60, duration := 2.5,
    currentAngles := (0.3, 0.3, 0.3), targetXY := none, trajectory := [],
    isAnimating := false, currentFrame := 0, hoverFrame := none,
    error := none, animIdx := 0, pending := [] }

/-- The canvas centre maps to the robot origin. -/
theorem toRobotCoords_centre : toRobotCoords 300 300 = ((0 : ℝ), (0 : ℝ)) := by
  unfold toRobotCoords BASE_X BASE_Y CANVAS_WIDTH CANVAS_HEIGHT
  norm_num

/-- The origin is inside the reach disc, so the clamp passes it
through. -/
theorem clampTarget_origin : clampTarget (0, 0) 100 80 60 = ((0 : ℝ), (0 : ℝ)) := by
  unfold clampTarget
  rw [if_neg]
  norm_num [Real.sqrt_zero]

/-- C7 failing input evaluated: a first click while Idle issues a
request (one in-flight request, target marker set); a second click
before any response arrives is NOT ignored — it passes the isAnimating
guard, mutates state and issues a second, overlapping request. -/
theorem overlapping_click_requests_bug :
    stIdle.isAnimating = false
    ∧ (handleCanvasClick stIdle 300 300).pending.length = 1
    ∧ (handleCanvasClick stIdle 300 300).targetXY = some ((0 : ℝ), (0 : ℝ))
    ∧ (handleCanvasClick (handleCanvasClick stIdle 300 300) 300 300).pending.length = 2 := by
  refine ⟨rfl, rfl, ?_, rfl⟩
  show some (clampTarget (toRobotCoords 300 300) 100 80 60) = some ((0 : ℝ), (0 : ℝ))
  rw [toRobotCoords_centre, clampTarget_origin]

/-- A sample as the planning service returns it. -/
noncomputable def rawS : RawSample := ⟨0, 0.3, 0.2, 0.1⟩

/-- C8 failing input evaluated: a click while Idle issues a request;
Reset arrives before the response (trajectory cleared, but the request
is still in flight); when the now-stale response lands, the code
applies it unconditionally — the trajectory is installed, currentFrame
reset and Animating entered — instead of detecting and discarding it. -/
theorem stale_response_applied_bug :
    (resetClick (handleCanvasClick stIdle 300 300)).trajectory = []
    ∧ (resetClick (handleCanvasClick stIdle 300 300)).pending.length = 1
    ∧ (responseSuccess (resetClick (handleCanvasClick stIdle 300 300)) 0
        [rawS]).isAnimating = true
    ∧ (responseSuccess (resetClick (handleCanvasClick stIdle 300 300)) 0
        [rawS]).trajectory.length = 1
    ∧ (responseSuccess (resetClick (handleCanvasClick stIdle 300 300)) 0
        [rawS]).currentFrame = 0 :=
  ⟨rfl, rfl, rfl, rfl, rfl⟩

/-- Indexing a list extended by one element at the old length yields
the new element. -/
theorem get?_concat_self {α : Type} (l : List α) (a : α) :
    (l ++ [a]).get? l.length = some a := by
  induction l with
  | nil => rfl
  | cons x xs ih => exact ih

/-- Erasing the last element of a list extended by one element gives
back the original list. -/
theorem eraseIdx_concat_self {α : Type} (l : List α) (a : α) :
    (l ++ [a]).eraseIdx l.length = l := by
  induction l with
  | nil => rfl
  | cons x xs ih => simpa using ih

/-- C9: a click accepted while not animating whose planning request
then fails leaves the machine exactly where it was — not animating,
committed angles, trajectory, frame counters and hover state untouched,
the pending target marker cleared, the human-readable message surfaced
as the error, and no retry issued (the in-flight set returns to what it
was before the click). -/
theorem click_failure_recovery (s : St) (cx cy : ℝ) (msg : String)
    (hA : s.isAnimating = false) :
    (responseFailure (handleCanvasClick s cx cy) s.pending.length
        msg).isAnimating = false
    ∧ (responseFailure (handleCanvasClick s cx cy) s.pending.length
        msg).currentAngles = s.currentAngles
    ∧ (responseFailure (handleCanvasClick s cx cy) s.pending.length
        msg).targetXY = none
    ∧ (responseFailure (handleCanvasClick s cx cy) s.pending.length
        msg).error = some msg
    ∧ (responseFailure (handleCanvasClick s cx cy) s.pending.length
        msg).trajectory = s.trajectory
    ∧ (responseFailure (handleCanvasClick s cx cy) s.pending.length
        msg).currentFrame = s.currentFrame
    ∧ (responseFailure (handleCanvasClick s cx cy) s.pending.length
        msg).hoverFrame = s.hoverFrame
    ∧ (responseFailure (handleCanvasClick s cx cy) s.pending.length
        msg).pending = s.pending := by
  have hclick : handleCanvasClick s cx cy =
      { s with
        targetXY := some (clampTarget (toRobotCoords cx cy) s.L1 s.L2 s.L3),
        error := none,
        pending := s.pending ++
          [⟨s.currentAngles,
            (clampTarget (toRobotCoords cx cy) s.L1 s.L2 s.L3).1,
            (clampTarget (toRobotCoords cx cy) s.L1 s.L2 s.L3).2,
            s.duration, 0.05, s.L1, s.L2, s.L3⟩] } := by
    unfold handleCanvasClick
    rw [hA]
    simp
  rw [hclick]
  unfold responseFailure
  simp [get?_concat_self, eraseIdx_concat_self, hA]

/-- Witness for click_failure_recovery: a click on stIdle at the canvas
centre followed by a failed response leaves the machine Idle with the
original angles, no target marker, the message surfaced and no
in-flight request left. -/
theorem click_failure_recovery_witness :
    stIdle.isAnimating = false
    ∧ (responseFailure (handleCanvasClick stIdle 300 300) 0
        "Failed to generate trajectory").isAnimating = false
    ∧ (responseFailure (handleCanvasClick stIdle 300 300) 0
        "Failed to generate trajectory").currentAngles = (0.3, 0.3, 0.3)
    ∧ (responseFailure (handleCanvasClick stIdle 300 300) 0
        "Failed to generate trajectory").targetXY = none
    ∧ (responseFailure (handleCanvasClick stIdle 300 300) 0
        "Failed to generate trajectory").error =
          some "Failed to generate trajectory"
    ∧ (responseFailure (handleCanvasClick stIdle 300 300) 0
        "Failed to generate trajectory").pending = [] := by
  have h := click_failure_recovery stIdle 300 300
    "Failed to generate trajectory" rfl
  exact ⟨rfl, h.1, h.2.1, h.2.2.1, h.2.2.2.1, h.2.2.2.2.2.2.2⟩

end Lspb
